import Mathlib

/-!
Shallow embedding of the schema-registry core of `t3-amqp`
(`src/t3-amqp/db/db_utils.go`, `src/t3-amqp/db/types.go`) together with the
storage-layer contract of `src/database/ddl/t3.sql` (the enum domain on the
`type` column and the uniqueness constraint on `(name, type, version)`).

Modelling conventions:
- The Postgres table `s1.schema` is a `Store`: a list of its rows plus the
  next id the `SERIAL` sequence will hand out.  The list order is the
  model's bookkeeping only: the code's SELECTs issue no ORDER BY, so
  Postgres guarantees no result order, and only order-robust facts about
  the query functions reflect the program (see `heapAfterInplaceUpdate`).
- `time.Now().UTC()` is an explicit `now : Nat` parameter.
- Storage-transport failures (connection loss, scan I/O errors) are not
  modelled; the structured failures the code can hit — enum-domain violation,
  uniqueness violation, pgx scan arity mismatch, `pgx.ErrNoRows`, and the
  application-level "schema not found" — are the `DBError` constructors.
- `schema_data` is opaque (the JSONB well-formedness check of Postgres is not
  modelled; no claim depends on it).
-/

set_option autoImplicit false

namespace T3

/-- Mirror of Go `db.QueryArgs` (types.go): the caller-supplied candidate. -/
structure QueryArgs where
  name : String
  type : String
  version : String
  schemaData : String
  deriving DecidableEq, Repr

/-- Mirror of Go `db.Schema` (types.go): one row of `s1.schema`. -/
structure Schema where
  id : Nat
  name : String
  type : String
  version : String
  schemaData : String
  created : Nat
  modified : Nat
  deriving DecidableEq, Repr

/-- The table `s1.schema`: rows in insertion order plus the `SERIAL` cursor. -/
structure Store where
  rows : List Schema
  nextId : Nat
  deriving DecidableEq, Repr

/-- The structured failures reachable in this embedding. -/
inductive DBError where
  /-- pgx v5 `Rows.Scan`: "number of field descriptions must equal number of
  destinations" (the SELECT's column count vs the destination count). -/
  | scanMismatch (fields dests : Nat)
  /-- `pgx.ErrNoRows` from `QueryRow(...).Scan` when the query matches no row. -/
  | noRows
  /-- Postgres rejects a value outside the enum domain `s1.schema_type`. -/
  | enumViolation (val : String)
  /-- Postgres rejects a row violating `unique_name_type_version`. -/
  | uniqueViolation
  /-- The `fmt.Errorf("schema not found")` raised by `UpdateSchema`. -/
  | schemaNotFound
  deriving DecidableEq, Repr

/-- The enum domain `s1.schema_type` of ddl/t3.sql. -/
def validSchemaType (t : String) : Bool :=
  t == "avro" || t == "json" || t == "protobuf" || t == "xsd" || t == "thrift"
    || t == "confluent"

/-- Whether row `r` collides with the candidate on `unique_name_type_version`. -/
def sameTriple (p : QueryArgs) (r : Schema) : Bool :=
  r.name == p.name && r.type == p.type && r.version == p.version

/-- `InsertSchema` (db_utils.go:72-95): a single INSERT with
`created = modified = now`, `RETURNING id`.  The Go function performs no
validation of its own; the two checks are the storage layer's (ddl/t3.sql):
the cast of `type` into the enum domain, then the uniqueness constraint. -/
def InsertSchema (st : Store) (params : QueryArgs) (now : Nat) :
    Except DBError (Nat × Store) :=
  if validSchemaType params.type = false then
    .error (.enumViolation params.type)
  else if st.rows.any (sameTriple params) then
    .error .uniqueViolation
  else
    let newRow : Schema :=
      ⟨st.nextId, params.name, params.type, params.version, params.schemaData,
        now, now⟩
    .ok (st.nextId, ⟨st.rows ++ [newRow], st.nextId + 1⟩)

/-- `GetSchemaById` (db_utils.go:98-117): the SELECT lists 7 columns
(`id, name, type, version, schema_data, created, modified`) but `row.Scan`
is given only 5 destinations, so pgx v5 fails with a field-count mismatch
whenever a row was found; when no row matches, `Scan` yields `pgx.ErrNoRows`. -/
def GetSchemaById (st : Store) (id : Nat) : Except DBError Schema :=
  match st.rows.find? (fun r => r.id == id) with
  | none => .error .noRows
  | some _ => .error (.scanMismatch 7 5)

/-- The WHERE clause assembled by `GetSchemaFilterParams` (db_utils.go:124-135):
one equality condition per *non-empty* field of `params`; an empty field
contributes no condition. -/
def matchesFilter (params : QueryArgs) (r : Schema) : Bool :=
  (params.name == "" || r.name == params.name)
    && (params.type == "" || r.type == params.type)
    && (params.version == "" || r.version == params.version)

/-- `GetSchemaFilterParams` (db_utils.go:120-162): SELECT with the dynamic
WHERE clause and no ORDER BY.  The model returns the matches in the stored
order of `Store.rows`, but the real SELECT's result order is unspecified
(no ORDER BY, and UPDATE/DELETE relocate heap tuples), so the row order
here is a modelling convention, not a guarantee of the program; only
order-robust consequences of this definition reflect the code (see
`heapAfterInplaceUpdate` and claim C5). -/
def GetSchemaFilterParams (st : Store) (params : QueryArgs) : List Schema :=
  st.rows.filter (matchesFilter params)

/-- `GetAllSchemas` (db_utils.go:231-253): unfiltered SELECT. -/
def GetAllSchemas (st : Store) : List Schema :=
  st.rows

/-- `UpdateSchema` (db_utils.go:164-212): look up by the candidate's identity
fields through `GetSchemaFilterParams`; zero matches is "schema not found";
if the first match's identity differs from the candidate's, insert the
candidate instead (db_utils.go:180-187); otherwise run the UPDATE that sets
`schema_data` and `modified` on every row keyed by the candidate's triple,
and re-read the same filter. -/
def UpdateSchema (st : Store) (params : QueryArgs) (now : Nat) :
    Except DBError (List Schema × Store) :=
  let existingSchemas :=
    GetSchemaFilterParams st ⟨params.name, params.type, params.version, ""⟩
  match existingSchemas with
  | [] => .error .schemaNotFound
  | first :: _ =>
    if first.name != params.name || first.type != params.type
        || first.version != params.version then
      match InsertSchema st params now with
      | .error e => .error e
      | .ok (_, st2) => .ok (GetSchemaFilterParams st2 params, st2)
    else
      let st2 : Store :=
        ⟨st.rows.map (fun r =>
            if sameTriple params r then
              { r with schemaData := params.schemaData, modified := now }
            else r),
          st.nextId⟩
      .ok (GetSchemaFilterParams st2 params, st2)

/-- `DeleteSchema` (db_utils.go:215-229): a single DELETE by id; the Go code
ignores the affected-row count and returns `nil` either way. -/
def DeleteSchema (st : Store) (id : Nat) : Except DBError Store :=
  .ok ⟨st.rows.filter (fun r => r.id != id), st.nextId⟩

/-- The uniqueness invariant `unique_name_type_version` holds of the store. -/
def UniqueTriples (st : Store) : Prop :=
  st.rows.Pairwise (fun a b =>
    ¬(a.name = b.name ∧ a.type = b.type ∧ a.version = b.version))

/-- One admissible physical row order of the table after the code's in-place
UPDATE path (db_utils.go:201-206), as produced by the storage engine the
core delegates to (spec section 6): a Postgres UPDATE writes the *new*
version of each affected tuple at the end of the heap, so a subsequent
sequential scan — and hence any of the code's no-ORDER-BY SELECTs — returns
the untouched rows first and the freshly updated rows last.  This is
behaviour of the DBMS, not of the repository's code: the code issues no
ORDER BY, so it inherits whatever order the heap happens to have. -/
def heapAfterInplaceUpdate (rows : List Schema) (p : QueryArgs) (now : Nat) :
    List Schema :=
  rows.filter (fun r => !(sameTriple p r))
    ++ (rows.filter (sameTriple p)).map
        (fun r => { r with schemaData := p.schemaData, modified := now })

/-- Modelled from the spec: `FilterCriteria` with genuinely optional
predicates — each of {name, type, version} is either unset (`none`, matches
any value) or a concrete value (`some s`, exact match).  Used only to compare
the code's filter against the spec's reading (claim C10). -/
def queryByFilterSpec (st : Store) (n t v : Option String) : List Schema :=
  st.rows.filter (fun r =>
    (match n with | none => true | some s => r.name == s)
      && (match t with | none => true | some s => r.type == s)
      && (match v with | none => true | some s => r.version == s))

/-- How the code's string-valued criteria map onto the spec's optional ones:
the empty string plays the role of "unset". -/
def toOpt (s : String) : Option String :=
  if s = "" then none else some s

instance {ε α : Type} [DecidableEq ε] [DecidableEq α] : DecidableEq (Except ε α)
  | .ok a, .ok b => by
    cases decEq a b with
    | isTrue h => exact isTrue (by rw [h])
    | isFalse h => exact isFalse (by intro hc; cases hc; exact h rfl)
  | .ok _, .error _ => isFalse (by intro hc; cases hc)
  | .error _, .ok _ => isFalse (by intro hc; cases hc)
  | .error e, .error f => by
    cases decEq e f with
    | isTrue h => exact isTrue (by rw [h])
    | isFalse h => exact isFalse (by intro hc; cases hc; exact h rfl)

/-! ### Basic lemmas about the filter -/

theorem mem_filterParams {st : Store} {p : QueryArgs} {r : Schema} :
    r ∈ GetSchemaFilterParams st p ↔ r ∈ st.rows ∧ matchesFilter p r = true := by
  simp [GetSchemaFilterParams, List.mem_filter]

theorem matchesFilter_of_triple {p : QueryArgs} {r : Schema}
    (h1 : r.name = p.name) (h2 : r.type = p.type) (h3 : r.version = p.version) :
    matchesFilter p r = true := by
  simp [matchesFilter, h1, h2, h3]

theorem triple_of_matchesFilter {p : QueryArgs} {r : Schema}
    (hn : p.name ≠ "") (ht : p.type ≠ "") (hv : p.version ≠ "")
    (h : matchesFilter p r = true) :
    r.name = p.name ∧ r.type = p.type ∧ r.version = p.version := by
  simp only [matchesFilter, Bool.and_eq_true, Bool.or_eq_true, beq_iff_eq] at h
  exact ⟨h.1.1.resolve_left hn, h.1.2.resolve_left ht, h.2.resolve_left hv⟩

theorem sameTriple_iff {p : QueryArgs} {r : Schema} :
    sameTriple p r = true ↔
      r.name = p.name ∧ r.type = p.type ∧ r.version = p.version := by
  simp [sameTriple, and_assoc]

theorem any_sameTriple_eq_false {st : Store} {p : QueryArgs}
    (hfresh : ∀ r ∈ st.rows,
      ¬(r.name = p.name ∧ r.type = p.type ∧ r.version = p.version)) :
    st.rows.any (sameTriple p) = false :=
  List.any_eq_false.mpr fun r hr hmat => hfresh r hr (sameTriple_iff.mp hmat)

/-- A fresh, type-valid insert succeeds and appends exactly one row. -/
theorem InsertSchema_ok_of_fresh {st : Store} {p : QueryArgs} {now : Nat}
    (hty : validSchemaType p.type = true)
    (hfresh : ∀ r ∈ st.rows,
      ¬(r.name = p.name ∧ r.type = p.type ∧ r.version = p.version)) :
    InsertSchema st p now
      = .ok (st.nextId,
          ⟨st.rows ++ [⟨st.nextId, p.name, p.type, p.version, p.schemaData,
            now, now⟩], st.nextId + 1⟩) := by
  simp [InsertSchema, hty, any_sameTriple_eq_false hfresh]

/-- With all three identity fields non-empty, the identity filter finds
nothing when no row carries the exact triple. -/
theorem filterParams_eq_nil_of_fresh {st : Store} {p : QueryArgs}
    (hn : p.name ≠ "") (ht : p.type ≠ "") (hv : p.version ≠ "")
    (hfresh : ∀ r ∈ st.rows,
      ¬(r.name = p.name ∧ r.type = p.type ∧ r.version = p.version)) :
    GetSchemaFilterParams st ⟨p.name, p.type, p.version, ""⟩ = [] := by
  refine List.filter_eq_nil_iff.mpr fun r hr hmat => ?_
  exact hfresh r hr (triple_of_matchesFilter hn ht hv hmat)

end T3

namespace T3

/-! ### The claims -/

/-- Claim C2 (counterexample):  The claim says: whenever the filter built from
the candidate's three identity fields returns at least one record, the first
record's name, type and version equal the candidate's.  With the candidate
`("", "json", "1")` the filter drops the empty name field, returns the row
named `"a"`, and that row's name differs from the candidate's. -/
theorem C2_counterexample :
    GetSchemaFilterParams ⟨[⟨1, "a", "json", "1", "p", 0, 0⟩], 2⟩
        ⟨"", "json", "1", ""⟩
      = [⟨1, "a", "json", "1", "p", 0, 0⟩]
      ∧ (⟨1, "a", "json", "1", "p", 0, 0⟩ : Schema).name
          ≠ (⟨"", "json", "1", ""⟩ : QueryArgs).name := by
  decide

/-- Claim C2 (amended):  When the candidate's three identity fields are all
non-empty, the first record returned by the identity filter (indeed every
returned record) carries exactly the candidate's name, type and version —
so the insert-instead-of-update branch of `UpdateSchema` is unreachable for
such candidates. -/
theorem C2_first_match_exact_when_fields_nonempty (st : Store) (p : QueryArgs)
    (first : Schema) (rest : List Schema)
    (hn : p.name ≠ "") (ht : p.type ≠ "") (hv : p.version ≠ "")
    (h : GetSchemaFilterParams st p = first :: rest) :
    first.name = p.name ∧ first.type = p.type ∧ first.version = p.version := by
  have hmem : first ∈ GetSchemaFilterParams st p := by
    rw [h]; exact List.mem_cons_self _ _
  exact triple_of_matchesFilter hn ht hv (mem_filterParams.mp hmem).2

/-- Witness for C2 at a concrete store and candidate. -/
theorem C2_witness :
    (⟨1, "a", "json", "1", "p", 0, 0⟩ : Schema).name
        = (⟨"a", "json", "1", "x"⟩ : QueryArgs).name
      ∧ (⟨1, "a", "json", "1", "p", 0, 0⟩ : Schema).type
        = (⟨"a", "json", "1", "x"⟩ : QueryArgs).type
      ∧ (⟨1, "a", "json", "1", "p", 0, 0⟩ : Schema).version
        = (⟨"a", "json", "1", "x"⟩ : QueryArgs).version :=
  C2_first_match_exact_when_fields_nonempty
    ⟨[⟨1, "a", "json", "1", "p", 0, 0⟩], 2⟩ ⟨"a", "json", "1", "x"⟩
    ⟨1, "a", "json", "1", "p", 0, 0⟩ []
    (by decide) (by decide) (by decide) (by decide)

/-- Claim C3 (counterexample):  The claim says: when no live record matches the
candidate's exact identity triple, `UpdateSchema` fails with NotFound and
mutates nothing.  Store: one row `("a", "json", "1")`; candidate
`("", "json", "1")`.  No row carries the exact triple `("", "json", "1")`
(first conjunct), yet the update succeeds and inserts a second row. -/
theorem C3_counterexample :
    ((⟨[⟨1, "a", "json", "1", "p1", 0, 0⟩], 2⟩ : Store).rows.all
        (fun r => !(sameTriple ⟨"", "json", "1", "p2"⟩ r))) = true
      ∧ UpdateSchema ⟨[⟨1, "a", "json", "1", "p1", 0, 0⟩], 2⟩
          ⟨"", "json", "1", "p2"⟩ 5
        = .ok ([⟨1, "a", "json", "1", "p1", 0, 0⟩, ⟨2, "", "json", "1", "p2", 5, 5⟩],
            ⟨[⟨1, "a", "json", "1", "p1", 0, 0⟩,
              ⟨2, "", "json", "1", "p2", 5, 5⟩], 3⟩) := by
  decide

/-- Claim C3 (amended):  When the candidate's three identity fields are all
non-empty and no live record carries the exact triple, `UpdateSchema`
returns the `schema not found` error before issuing any INSERT or UPDATE
statement, so the store is untouched.  (With an empty identity field the
lookup keys on the remaining fields only and may fork instead — see C1.) -/
theorem C3_notfound_when_no_exact_match (st : Store) (p : QueryArgs) (now : Nat)
    (hn : p.name ≠ "") (ht : p.type ≠ "") (hv : p.version ≠ "")
    (hfresh : ∀ r ∈ st.rows,
      ¬(r.name = p.name ∧ r.type = p.type ∧ r.version = p.version)) :
    UpdateSchema st p now = .error .schemaNotFound := by
  simp [UpdateSchema, filterParams_eq_nil_of_fresh hn ht hv hfresh]

/-- Witness for C3 at a concrete store and candidate. -/
theorem C3_witness :
    UpdateSchema ⟨[⟨1, "a", "json", "1", "p1", 0, 0⟩], 2⟩
        ⟨"b", "json", "2", "p2"⟩ 5
      = .error .schemaNotFound :=
  C3_notfound_when_no_exact_match
    ⟨[⟨1, "a", "json", "1", "p1", 0, 0⟩], 2⟩ ⟨"b", "json", "2", "p2"⟩ 5
    (by decide) (by decide) (by decide) (by decide)

/-- Claim C5 (code bug):  The claim says a query with empty criteria returns
every live record in ascending-id (insertion) order, and that the same
order holds for every filtered query result.  The every-live-record half is
true of the code (no WHERE condition is emitted), but the order half is the
stated intent — required by the spec's first-match determinism, asserted by
the enabled test `TestGetAllSchemas` (index-aligned with insertion order),
and relied on by `UpdateSchema` when it inspects `existingSchemas[0]` —
that the code does not implement: the SELECT has no ORDER BY.  Evaluated at
the failing input: rows ids 1 and 2, the code's own in-place update of row
1 succeeds (first conjunct); the heap then holds row 1's new version last,
so the subsequent unordered scan returns `[id 2, id 1]` (second conjunct),
which is not ascending by id (third conjunct). -/
theorem C5_no_order_by_breaks_ascending_order :
    UpdateSchema
        ⟨[⟨1, "a", "json", "1", "p1", 0, 0⟩, ⟨2, "b", "json", "1", "p2", 0, 0⟩], 3⟩
        ⟨"a", "json", "1", "q"⟩ 9
      = .ok ([⟨1, "a", "json", "1", "q", 0, 9⟩],
          ⟨[⟨1, "a", "json", "1", "q", 0, 9⟩,
            ⟨2, "b", "json", "1", "p2", 0, 0⟩], 3⟩)
      ∧ heapAfterInplaceUpdate
          [⟨1, "a", "json", "1", "p1", 0, 0⟩, ⟨2, "b", "json", "1", "p2", 0, 0⟩]
          ⟨"a", "json", "1", "q"⟩ 9
        = [⟨2, "b", "json", "1", "p2", 0, 0⟩, ⟨1, "a", "json", "1", "q", 0, 9⟩]
      ∧ ¬ List.Pairwise (fun a b : Schema => a.id < b.id)
          [⟨2, "b", "json", "1", "p2", 0, 0⟩, ⟨1, "a", "json", "1", "q", 0, 9⟩] := by
  decide

/-- Claim C6 (code bug):  The claim says `getById(id)` returns the stored record
when a live record with that id exists.  In the code the SELECT lists 7
columns while `row.Scan` receives 5 destinations, so pgx v5 fails with a
field-count mismatch on every existing id; the repository's own enabled
tests (`TestInsertSchema`, `TestUpdateSchema`, `TestDeleteSchema`) assert
that `GetSchemaById` succeeds after an insert.  Only the NotFound half of
the claim holds (`pgx.ErrNoRows` when no row matches). -/
theorem C6_getById_always_fails :
    ((⟨[⟨1, "test_schema", "json", "1.0.1", "d", 0, 0⟩], 2⟩ : Store).rows.any
        (fun r => r.id == 1)) = true
      ∧ GetSchemaById ⟨[⟨1, "test_schema", "json", "1.0.1", "d", 0, 0⟩], 2⟩ 1
        = .error (.scanMismatch 7 5)
      ∧ GetSchemaById ⟨[⟨1, "test_schema", "json", "1.0.1", "d", 0, 0⟩], 2⟩ 9999
        = .error .noRows := by
  decide

/-- Claim C7 (counterexample):  The claim says an insert whose name, type or
version is empty fails with InvalidInput before any storage call.  The code
performs no validation at all: an insert with an **empty version** (and a
supported type) reaches the database and succeeds. -/
theorem C7_counterexample :
    InsertSchema ⟨[], 1⟩ ⟨"x", "json", "", "d"⟩ 0
      = .ok (1, ⟨[⟨1, "x", "json", "", "d", 0, 0⟩], 2⟩) := by
  decide

/-- Claim C7 (amended):  The core performs no pre-storage validation.  The only
input-shape failure is an unsupported `type` (the empty string included),
and it is detected by the storage layer's enum domain `s1.schema_type`, not
before the storage call; empty name or version are accepted. -/
theorem C7_unsupported_type_fails_at_storage (st : Store) (p : QueryArgs)
    (now : Nat) (h : validSchemaType p.type = false) :
    InsertSchema st p now = .error (.enumViolation p.type) := by
  simp [InsertSchema, h]

/-- Witness for C7 with an unsupported type. -/
theorem C7_witness :
    InsertSchema ⟨[], 1⟩ ⟨"x", "yaml", "1", "d"⟩ 0
      = .error (.enumViolation "yaml") :=
  C7_unsupported_type_fails_at_storage ⟨[], 1⟩ ⟨"x", "yaml", "1", "d"⟩ 0
    (by decide)

/-- Claim C8 (counterexample):  The claim says `delete(id)` on a nonexistent id
fails with NotFound.  The code runs the DELETE and ignores the affected-row
count: deleting id 9999 from a store that does not contain it returns
success (the store is indeed unchanged). -/
theorem C8_counterexample :
    DeleteSchema ⟨[⟨1, "a", "json", "1", "p", 0, 0⟩], 2⟩ 9999
      = .ok ⟨[⟨1, "a", "json", "1", "p", 0, 0⟩], 2⟩ := by
  decide

/-- Claim C8 (amended):  Deleting an id that no live record carries leaves the
store unchanged but reports success — the code never inspects the DELETE's
affected-row count, so no NotFound is raised. -/
theorem C8_delete_missing_id_succeeds (st : Store) (id : Nat)
    (h : ∀ r ∈ st.rows, r.id ≠ id) :
    DeleteSchema st id = .ok st := by
  have hself : st.rows.filter (fun r => r.id != id) = st.rows :=
    List.filter_eq_self.mpr fun r hr => by simpa [bne_iff_ne] using h r hr
  unfold DeleteSchema
  rw [hself]

/-- Witness for C8 at a concrete store and id. -/
theorem C8_witness :
    DeleteSchema ⟨[⟨1, "a", "json", "1", "p", 0, 0⟩], 2⟩ 7
      = .ok ⟨[⟨1, "a", "json", "1", "p", 0, 0⟩], 2⟩ :=
  C8_delete_missing_id_succeeds ⟨[⟨1, "a", "json", "1", "p", 0, 0⟩], 2⟩ 7
    (by decide)

/-- Claim C10 (confirmed):  The code's filter with a string-valued criteria
behaves exactly like the spec's `FilterCriteria` with genuinely optional
predicates, under the mapping that sends the empty string to "unset": an
empty field contributes no condition, so it can never select only records
whose field is the empty string, and `UpdateSchema`'s initial lookup (which
calls this same filter on the candidate's identity fields) keys on the
non-empty fields only. -/
theorem C10_empty_field_is_unset (st : Store) (p : QueryArgs) :
    GetSchemaFilterParams st p
      = queryByFilterSpec st (toOpt p.name) (toOpt p.type) (toOpt p.version) := by
  refine List.filter_congr fun r _ => ?_
  rw [Bool.eq_iff_iff]
  simp only [matchesFilter, toOpt, Bool.and_eq_true, Bool.or_eq_true, beq_iff_eq]
  by_cases hn : p.name = "" <;> by_cases ht : p.type = "" <;>
    by_cases hv : p.version = "" <;>
      simp [hn, ht, hv]

/-- Claim C1 (counterexample):  The claim says: updating with a candidate whose
identity differs from a live record's identity always leaves the old record
and creates a new live record with the candidate's identity and payload.
Store: one row `("a", "json", "1")`; candidate `("b", "json", "1")` — a
different identity with every field non-empty.  The lookup keyed by the
candidate's own identity finds nothing, so the update fails with the
`schema not found` error and inserts nothing: afterwards the candidate's
identity is *not* present. -/
theorem C1_counterexample :
    UpdateSchema ⟨[⟨1, "a", "json", "1", "p1", 0, 0⟩], 2⟩
        ⟨"b", "json", "1", "p2"⟩ 5
      = .error .schemaNotFound := by
  decide

/-- Claim C1 (amended):  The fork happens only when the candidate's identity
filter (built from its non-empty fields, so necessarily with at least one
empty field) still matches some record whose identity differs from the
candidate's.  In that case — provided the candidate's type is in the enum
domain and its exact triple is not yet live — the old rows are left
untouched and a brand-new row with the candidate's identity and payload is
appended, so both identities are live afterwards. -/
theorem C1_fork_requires_filter_overlap (st : Store) (p : QueryArgs)
    (now : Nat) (first : Schema) (rest : List Schema)
    (hfil : GetSchemaFilterParams st ⟨p.name, p.type, p.version, ""⟩
      = first :: rest)
    (hdiff : ¬(first.name = p.name ∧ first.type = p.type
      ∧ first.version = p.version))
    (hty : validSchemaType p.type = true)
    (hfresh : ∀ r ∈ st.rows,
      ¬(r.name = p.name ∧ r.type = p.type ∧ r.version = p.version)) :
    UpdateSchema st p now
        = .ok
            (GetSchemaFilterParams
              ⟨st.rows ++ [⟨st.nextId, p.name, p.type, p.version, p.schemaData,
                now, now⟩], st.nextId + 1⟩ p,
             ⟨st.rows ++ [⟨st.nextId, p.name, p.type, p.version, p.schemaData,
                now, now⟩], st.nextId + 1⟩)
      ∧ first ∈ st.rows := by
  have hguard : (first.name != p.name || first.type != p.type
      || first.version != p.version) = true := by
    simp only [Bool.or_eq_true, bne_iff_ne]
    by_contra hc
    push_neg at hc
    exact hdiff ⟨hc.1.1, hc.1.2, hc.2⟩
  constructor
  · simp only [UpdateSchema, hfil, hguard, if_true,
      InsertSchema_ok_of_fresh hty hfresh]
  · have hmem : first ∈ GetSchemaFilterParams st ⟨p.name, p.type, p.version, ""⟩ := by
      rw [hfil]; exact List.mem_cons_self _ _
    exact (mem_filterParams.mp hmem).1

/-- Witness for C1: the store holds `("a", "json", "1")`; the candidate
`("", "json", "1")` has an empty name, its filter matches the old row, and
the update forks: the old row survives and a new row with the candidate's
identity and payload is appended. -/
theorem C1_witness :
    UpdateSchema ⟨[⟨1, "a", "json", "1", "p1", 0, 0⟩], 2⟩
          ⟨"", "json", "1", "q"⟩ 7
        = .ok
            (GetSchemaFilterParams
              ⟨[⟨1, "a", "json", "1", "p1", 0, 0⟩,
                ⟨2, "", "json", "1", "q", 7, 7⟩], 3⟩ ⟨"", "json", "1", "q"⟩,
             ⟨[⟨1, "a", "json", "1", "p1", 0, 0⟩,
               ⟨2, "", "json", "1", "q", 7, 7⟩], 3⟩)
      ∧ (⟨1, "a", "json", "1", "p1", 0, 0⟩ : Schema)
          ∈ (⟨[⟨1, "a", "json", "1", "p1", 0, 0⟩], 2⟩ : Store).rows :=
  C1_fork_requires_filter_overlap
    ⟨[⟨1, "a", "json", "1", "p1", 0, 0⟩], 2⟩ ⟨"", "json", "1", "q"⟩ 7
    ⟨1, "a", "json", "1", "p1", 0, 0⟩ []
    (by decide) (by decide) (by decide) (by decide)

/-- Claim C4 (confirmed):  On a store satisfying the uniqueness constraint and
holding a live record `r` with the candidate's exact identity, any
successful `UpdateSchema` run rewrites exactly `r`'s `schema_data` and
`modified` fields (its id, created, name, type and version survive, as does
every other row, in place), and the SERIAL cursor is untouched. -/
theorem C4_inplace_update_frame (st : Store) (p : QueryArgs) (now : Nat)
    (r : Schema) (out : List Schema) (st2 : Store)
    (huniq : UniqueTriples st) (hr : r ∈ st.rows)
    (hn : r.name = p.name) (ht : r.type = p.type) (hv : r.version = p.version)
    (hok : UpdateSchema st p now = .ok (out, st2)) :
    st2.rows
        = st.rows.map (fun x =>
            if x = r then { r with schemaData := p.schemaData, modified := now }
            else x)
      ∧ st2.nextId = st.nextId := by
  have hmemfil : r ∈ GetSchemaFilterParams st ⟨p.name, p.type, p.version, ""⟩ :=
    mem_filterParams.mpr ⟨hr, matchesFilter_of_triple hn ht hv⟩
  cases hfe : GetSchemaFilterParams st ⟨p.name, p.type, p.version, ""⟩ with
  | nil => rw [hfe] at hmemfil; cases hmemfil
  | cons first rest =>
    simp only [UpdateSchema, hfe] at hok
    by_cases hg : (first.name != p.name || first.type != p.type
        || first.version != p.version) = true
    · rw [if_pos hg] at hok
      have hins : st.rows.any (sameTriple p) = true :=
        List.any_eq_true.mpr ⟨r, hr, sameTriple_iff.mpr ⟨hn, ht, hv⟩⟩
      cases hvt : validSchemaType p.type with
      | false => simp [InsertSchema, hvt] at hok
      | true => simp [InsertSchema, hvt, hins] at hok
    · rw [if_neg hg] at hok
      simp only [Except.ok.injEq, Prod.mk.injEq] at hok
      obtain ⟨-, hst2⟩ := hok
      subst hst2
      refine ⟨?_, rfl⟩
      refine List.map_congr_left fun x hx => ?_
      by_cases hmat : sameTriple p x = true
      · obtain ⟨e1, e2, e3⟩ := sameTriple_iff.mp hmat
        have hxr : x = r := by
          by_contra hne
          have hsymm : Symmetric (fun a b : Schema =>
              ¬(a.name = b.name ∧ a.type = b.type ∧ a.version = b.version)) :=
            fun a b hab ⟨f1, f2, f3⟩ => hab ⟨f1.symm, f2.symm, f3.symm⟩
          exact List.Pairwise.forall hsymm huniq hx hr hne
            ⟨e1.trans hn.symm, e2.trans ht.symm, e3.trans hv.symm⟩
        subst hxr
        rw [if_pos hmat, if_pos rfl]
      · rw [if_neg hmat, if_neg ?_]
        intro hxr
        subst hxr
        exact hmat (sameTriple_iff.mpr ⟨hn, ht, hv⟩)

/-- Witness for C4: in a two-row store, updating the second row's identity
in place rewrites only its payload and modified timestamp. -/
theorem C4_witness :
    (⟨[⟨1, "a", "json", "1", "p1", 0, 0⟩,
        ⟨2, "b", "json", "1", "q", 0, 9⟩], 3⟩ : Store).rows
        = (⟨[⟨1, "a", "json", "1", "p1", 0, 0⟩,
            ⟨2, "b", "json", "1", "p2", 0, 0⟩], 3⟩ : Store).rows.map
            (fun x =>
              if x = ⟨2, "b", "json", "1", "p2", 0, 0⟩ then
                { (⟨2, "b", "json", "1", "p2", 0, 0⟩ : Schema) with
                    schemaData := "q", modified := 9 }
              else x)
      ∧ (⟨[⟨1, "a", "json", "1", "p1", 0, 0⟩,
            ⟨2, "b", "json", "1", "q", 0, 9⟩], 3⟩ : Store).nextId
        = (⟨[⟨1, "a", "json", "1", "p1", 0, 0⟩,
            ⟨2, "b", "json", "1", "p2", 0, 0⟩], 3⟩ : Store).nextId :=
  C4_inplace_update_frame
    ⟨[⟨1, "a", "json", "1", "p1", 0, 0⟩, ⟨2, "b", "json", "1", "p2", 0, 0⟩], 3⟩
    ⟨"b", "json", "1", "q"⟩ 9 ⟨2, "b", "json", "1", "p2", 0, 0⟩
    [⟨2, "b", "json", "1", "q", 0, 9⟩]
    ⟨[⟨1, "a", "json", "1", "p1", 0, 0⟩, ⟨2, "b", "json", "1", "q", 0, 9⟩], 3⟩
    (by unfold UniqueTriples; decide) (by decide)
    (by decide) (by decide) (by decide) (by decide)

/-- Claim C9 (confirmed):  On a store satisfying the uniqueness constraint, a
valid registration (non-empty identity fields, supported type) of a triple
not yet present appends exactly one new row, and the subsequent lookup by
that exact triple returns exactly that row, whose payload is the
registered one. -/
theorem C9_register_then_lookup (st : Store) (p : QueryArgs) (now : Nat)
    (_huniq : UniqueTriples st)
    (hn : p.name ≠ "") (ht : p.type ≠ "") (hv : p.version ≠ "")
    (hty : validSchemaType p.type = true)
    (hfresh : ∀ r ∈ st.rows,
      ¬(r.name = p.name ∧ r.type = p.type ∧ r.version = p.version)) :
    InsertSchema st p now
        = .ok (st.nextId,
            ⟨st.rows ++ [⟨st.nextId, p.name, p.type, p.version, p.schemaData,
              now, now⟩], st.nextId + 1⟩)
      ∧ GetSchemaFilterParams
          ⟨st.rows ++ [⟨st.nextId, p.name, p.type, p.version, p.schemaData,
            now, now⟩], st.nextId + 1⟩
          ⟨p.name, p.type, p.version, ""⟩
        = [⟨st.nextId, p.name, p.type, p.version, p.schemaData, now, now⟩] := by
  refine ⟨InsertSchema_ok_of_fresh hty hfresh, ?_⟩
  have h1 : GetSchemaFilterParams st ⟨p.name, p.type, p.version, ""⟩ = [] :=
    filterParams_eq_nil_of_fresh hn ht hv hfresh
  have h2 : matchesFilter ⟨p.name, p.type, p.version, ""⟩
      ⟨st.nextId, p.name, p.type, p.version, p.schemaData, now, now⟩ = true :=
    matchesFilter_of_triple rfl rfl rfl
  unfold GetSchemaFilterParams at h1 ⊢
  rw [List.filter_append, h1]
  simp [h2]

/-- Witness for C9: registering `("orders", "json", "1.0.0")` into the empty
store and looking it up returns exactly the new row with its payload. -/
theorem C9_witness :
    InsertSchema ⟨[], 1⟩ ⟨"orders", "json", "1.0.0", "pp"⟩ 3
        = .ok (1, ⟨[⟨1, "orders", "json", "1.0.0", "pp", 3, 3⟩], 2⟩)
      ∧ GetSchemaFilterParams ⟨[⟨1, "orders", "json", "1.0.0", "pp", 3, 3⟩], 2⟩
          ⟨"orders", "json", "1.0.0", ""⟩
        = [⟨1, "orders", "json", "1.0.0", "pp", 3, 3⟩] :=
  C9_register_then_lookup ⟨[], 1⟩ ⟨"orders", "json", "1.0.0", "pp"⟩ 3
    (by unfold UniqueTriples; decide) (by decide) (by decide) (by decide)
    (by decide) (by decide)

end T3
